import Mathlib

/-! MVD service header (`3ds/services/mvd.h`).

A shallow embedding of the public contract declared in `mvd.h`: the status
macros, the three enumerations, the declaration list of `MVDSTD_Config` with
the byte layout it induces, and the configuration builder.
-/

namespace MVD

/-! ## Status macros (mvd.h lines 10-11) -/

/-- The macro `MVD_STATUS_OK`. -/
def MVD_STATUS_OK : Nat := 0x17000

/-- The macro `MVD_STATUS_BUSY`. -/
def MVD_STATUS_BUSY : Nat := 0x17002

/-! ## Enumerations (mvd.h lines 14-29) -/

/-- Processing mode. -/
inductive MVDSTD_Mode where
  | MVDMODE_COLORFORMATCONV
  | MVDMODE_VIDEOPROCESSING
  deriving DecidableEq, Repr

/-- Input format. -/
inductive MVDSTD_InputFormat where
  | MVD_INPUT_YUYV422
  | MVD_INPUT_H264
  deriving DecidableEq, Repr

/-- Output format. -/
inductive MVDSTD_OutputFormat where
  | MVD_OUTPUT_BGR565
  | MVD_OUTPUT_RGB565
  deriving DecidableEq, Repr

/-- The enumerator values of `MVDSTD_Mode`: no initialiser, so C numbers them 0, 1. -/
def MVDSTD_Mode.toCode : MVDSTD_Mode → Nat
  | .MVDMODE_COLORFORMATCONV => 0
  | .MVDMODE_VIDEOPROCESSING => 1

/-- The enumerator values written in `MVDSTD_InputFormat`. -/
def MVDSTD_InputFormat.toCode : MVDSTD_InputFormat → Nat
  | .MVD_INPUT_YUYV422 => 0x00010001
  | .MVD_INPUT_H264 => 0x00020001

/-- The enumerator values written in `MVDSTD_OutputFormat`. -/
def MVDSTD_OutputFormat.toCode : MVDSTD_OutputFormat → Nat
  | .MVD_OUTPUT_BGR565 => 0x00040002
  | .MVD_OUTPUT_RGB565 => 0x00040004

/-! ## The declaration list of `MVDSTD_Config` (mvd.h lines 32-59) -/

/-- The C type written in front of a member. -/
inductive CType where
  | u32
  | enumInputFormat
  | enumOutputFormat
  deriving DecidableEq, Repr

/-- Size in bytes of one element: `u32` is four bytes and the two enumerations,
whose values need more than 16 bits, are represented as 4-byte words. -/
def CType.sizeOf : CType → Nat
  | .u32 => 4
  | .enumInputFormat => 4
  | .enumOutputFormat => 4

/-- One member declaration: its type, its name and the number of elements
(1 for a scalar, the bracketed expression for an array). -/
structure Member where
  ctype : CType
  name : String
  count : Nat
  deriving DecidableEq, Repr

/-- The members of `MVDSTD_Config`, in declaration order. -/
def MVDSTD_Config_members : List Member :=
  [ ⟨.enumInputFormat, "input_type", 1⟩,
    ⟨.u32, "unk_x04", 1⟩,
    ⟨.u32, "unk_x08", 1⟩,
    ⟨.u32, "inwidth", 1⟩,
    ⟨.u32, "inheight", 1⟩,
    ⟨.u32, "physaddr_colorconv_indata", 1⟩,
    ⟨.u32, "physaddr_colorconv_unk0", 1⟩,
    ⟨.u32, "physaddr_colorconv_unk1", 1⟩,
    ⟨.u32, "physaddr_colorconv_unk2", 1⟩,
    ⟨.u32, "physaddr_colorconv_unk3", 1⟩,
    ⟨.u32, "unk_x28", 0x18 >>> 2⟩,
    ⟨.u32, "flag_x40", 1⟩,
    ⟨.u32, "unk_x44", 1⟩,
    ⟨.u32, "unk_x48", 1⟩,
    ⟨.u32, "outheight0", 1⟩,
    ⟨.u32, "outwidth0", 1⟩,
    ⟨.u32, "unk_x54", 1⟩,
    ⟨.enumOutputFormat, "output_type", 1⟩,
    ⟨.u32, "outwidth1", 1⟩,
    ⟨.u32, "outheight1", 1⟩,
    ⟨.u32, "physaddr_outdata0", 1⟩,
    ⟨.u32, "physaddr_outdata1_colorconv", 1⟩,
    ⟨.u32, "unk_x6c", 0xa4 >>> 2⟩,
    ⟨.u32, "output_width_override", 1⟩,
    ⟨.u32, "output_height_override", 1⟩,
    ⟨.u32, "unk_x118", 1⟩ ]

/-- Bytes occupied by a member. -/
def Member.bytes (m : Member) : Nat := m.ctype.sizeOf * m.count

/-- A member placed in the record: the half-open byte range `[start, stop)`. -/
structure Placed where
  name : String
  start : Nat
  stop : Nat
  deriving DecidableEq, Repr

/-- Lay members out one after the other from byte `off`, without padding. -/
def layoutFrom : Nat → List Member → List Placed
  | _, [] => []
  | off, m :: ms => ⟨m.name, off, off + m.bytes⟩ :: layoutFrom (off + m.bytes) ms

/-- The byte layout of `MVDSTD_Config`. -/
def MVDSTD_Config_layout : List Placed := layoutFrom 0 MVDSTD_Config_members

/-- The `sizeof` of a member list laid out without padding. -/
def sizeOfMembers (ms : List Member) : Nat := (ms.map Member.bytes).sum

/-- The value of `sizeof(MVDSTD_Config)`. -/
def MVDSTD_Config_size : Nat := sizeOfMembers MVDSTD_Config_members

/-- The value of `offsetof(MVDSTD_Config, name)`, when `name` is a member. -/
def offsetOf (name : String) : Option Nat :=
  (MVDSTD_Config_layout.find? (fun p => p.name == name)).map Placed.start

/-- The byte range of the member `name`, when it is one. -/
def rangeOf (name : String) : Option (Nat × Nat) :=
  (MVDSTD_Config_layout.find? (fun p => p.name == name)).map (fun p => (p.start, p.stop))

/-- Value of a hexadecimal digit (either case). -/
def hexDigit? (c : Char) : Option Nat :=
  if 48 ≤ c.toNat ∧ c.toNat ≤ 57 then some (c.toNat - 48)
  else if 97 ≤ c.toNat ∧ c.toNat ≤ 102 then some (c.toNat - 87)
  else if 65 ≤ c.toNat ∧ c.toNat ≤ 70 then some (c.toNat - 55)
  else none

/-- Read a non-empty run of hexadecimal digits as a number. -/
def hexValue? : List Char → Option Nat
  | [] => none
  | cs => cs.foldl (fun acc c => acc.bind (fun n => (hexDigit? c).map (fun d => 16 * n + d))) (some 0)

/-- The offset a member name embeds: the hexadecimal digits that end the name
after the marker `_x`, as in `unk_x6c` or `flag_x40`. -/
def embeddedOffset? : List Char → Option Nat
  | [] => none
  | c :: cs =>
    match embeddedOffset? cs with
    | some n => some n
    | none =>
      match c, cs with
      | '_', 'x' :: ds => hexValue? ds
      | _, _ => none

/-- The members whose name embeds an offset, with that offset and the start the
layout gives them. -/
def embeddedOffsets : List (String × Nat × Nat) :=
  MVDSTD_Config_layout.filterMap
    (fun p => (embeddedOffset? p.name.toList).map (fun n => (p.name, n, p.start)))

/-- Number of members whose byte range contains byte `b`. -/
def coverCount (b : Nat) : Nat :=
  (MVDSTD_Config_layout.filter (fun p => decide (p.start ≤ b ∧ b < p.stop))).length

/-- A member holding a physical address of a colour-conversion input or
intermediate buffer: the members named `physaddr_colorconv_*`. -/
def isColorconvPhysaddr (m : Member) : Bool :=
  "physaddr_colorconv_".toList.isPrefixOf m.name.toList

/-- A member holding a physical address of an output buffer: the members named
`physaddr_outdata*`. -/
def isOutputPhysaddr (m : Member) : Bool :=
  "physaddr_outdata".toList.isPrefixOf m.name.toList

/-- Names of the colour-conversion input/intermediate address members. -/
def colorconvPhysaddrNames : List String :=
  (MVDSTD_Config_members.filter isColorconvPhysaddr).map Member.name

/-- Names of the output address members. -/
def outputPhysaddrNames : List String :=
  (MVDSTD_Config_members.filter isOutputPhysaddr).map Member.name

/-! ## Formats seen through their numeric codes -/

/-- An enumerator of either format enumeration. -/
inductive Format where
  | input (f : MVDSTD_InputFormat)
  | output (f : MVDSTD_OutputFormat)
  deriving DecidableEq, Repr

/-- The numeric code of an enumerator of either enumeration. -/
def Format.toCode : Format → Nat
  | .input f => f.toCode
  | .output f => f.toCode

/-- Every enumerator of `MVDSTD_InputFormat`. -/
def allInputFormats : List MVDSTD_InputFormat := [.MVD_INPUT_YUYV422, .MVD_INPUT_H264]

/-- Every enumerator of `MVDSTD_OutputFormat`. -/
def allOutputFormats : List MVDSTD_OutputFormat := [.MVD_OUTPUT_BGR565, .MVD_OUTPUT_RGB565]

/-- Every enumerator of the two format enumerations. -/
def allFormats : List Format := allInputFormats.map .input ++ allOutputFormats.map .output

/-- Decoder used to state the round trip: the first input enumerator carrying `code`.
The header declares no decoder; this one is the search the round-trip property speaks of. -/
def decodeInputFormat (code : Nat) : Option MVDSTD_InputFormat :=
  allInputFormats.find? (fun f => f.toCode == code)

/-- Decoder used to state the round trip: the first output enumerator carrying `code`. -/
def decodeOutputFormat (code : Nat) : Option MVDSTD_OutputFormat :=
  allOutputFormats.find? (fun f => f.toCode == code)

/-- Decoder used to state the round trip: the first enumerator of either
enumeration carrying `code`. -/
def decodeFormat (code : Nat) : Option Format :=
  allFormats.find? (fun f => f.toCode == code)

/-! ## The configuration record and its builder -/

/-- A value of `MVDSTD_Config`: one 32-bit word per scalar member (the two
enumeration members hold the enumerator's numeric code) and a list of words per
array member. -/
structure MVDSTD_Config where
  input_type : Nat
  unk_x04 : Nat
  unk_x08 : Nat
  inwidth : Nat
  inheight : Nat
  physaddr_colorconv_indata : Nat
  physaddr_colorconv_unk0 : Nat
  physaddr_colorconv_unk1 : Nat
  physaddr_colorconv_unk2 : Nat
  physaddr_colorconv_unk3 : Nat
  unk_x28 : List Nat
  flag_x40 : Nat
  unk_x44 : Nat
  unk_x48 : Nat
  outheight0 : Nat
  outwidth0 : Nat
  unk_x54 : Nat
  output_type : Nat
  outwidth1 : Nat
  outheight1 : Nat
  physaddr_outdata0 : Nat
  physaddr_outdata1_colorconv : Nat
  unk_x6c : List Nat
  output_width_override : Nat
  output_height_override : Nat
  unk_x118 : Nat
  deriving DecidableEq, Repr

/-- The record as the sequence of words it occupies, in declaration order. -/
def MVDSTD_Config.toWords (c : MVDSTD_Config) : List Nat :=
  [c.input_type, c.unk_x04, c.unk_x08, c.inwidth, c.inheight,
   c.physaddr_colorconv_indata, c.physaddr_colorconv_unk0, c.physaddr_colorconv_unk1,
   c.physaddr_colorconv_unk2, c.physaddr_colorconv_unk3]
  ++ c.unk_x28
  ++ [c.flag_x40, c.unk_x44, c.unk_x48, c.outheight0, c.outwidth0, c.unk_x54,
      c.output_type, c.outwidth1, c.outheight1, c.physaddr_outdata0,
      c.physaddr_outdata1_colorconv]
  ++ c.unk_x6c
  ++ [c.output_width_override, c.output_height_override, c.unk_x118]

/-- The record with every word zero, the two arrays at their declared lengths. -/
def MVDSTD_Config.zero : MVDSTD_Config :=
  { input_type := 0, unk_x04 := 0, unk_x08 := 0, inwidth := 0, inheight := 0,
    physaddr_colorconv_indata := 0, physaddr_colorconv_unk0 := 0,
    physaddr_colorconv_unk1 := 0, physaddr_colorconv_unk2 := 0,
    physaddr_colorconv_unk3 := 0, unk_x28 := List.replicate (0x18 >>> 2) 0,
    flag_x40 := 0, unk_x44 := 0, unk_x48 := 0, outheight0 := 0, outwidth0 := 0,
    unk_x54 := 0, output_type := 0, outwidth1 := 0, outheight1 := 0,
    physaddr_outdata0 := 0, physaddr_outdata1_colorconv := 0,
    unk_x6c := List.replicate (0xa4 >>> 2) 0,
    output_width_override := 0, output_height_override := 0, unk_x118 := 0 }

/-- C1: in the padding-free layout of `MVDSTD_Config`, each member whose name embeds
a hexadecimal offset starts at exactly that byte offset; these members are the
nine `unk_x04`, `unk_x08`, `unk_x28`, `flag_x40`, `unk_x44`, `unk_x48`, `unk_x54`,
`unk_x6c` and `unk_x118`, at 0x04, 0x08, 0x28, 0x40, 0x44, 0x48, 0x54, 0x6C, 0x118. -/
theorem config_named_offsets :
    (∀ m ∈ MVDSTD_Config_members, m.ctype.sizeOf = 4)
    ∧ offsetOf "unk_x04" = some 0x04
    ∧ offsetOf "unk_x08" = some 0x08
    ∧ offsetOf "unk_x28" = some 0x28
    ∧ offsetOf "flag_x40" = some 0x40
    ∧ offsetOf "unk_x44" = some 0x44
    ∧ offsetOf "unk_x48" = some 0x48
    ∧ offsetOf "unk_x54" = some 0x54
    ∧ offsetOf "unk_x6c" = some 0x6C
    ∧ offsetOf "unk_x118" = some 0x118
    ∧ embeddedOffsets.map (fun e => e.1)
        = ["unk_x04", "unk_x08", "unk_x28", "flag_x40", "unk_x44", "unk_x48", "unk_x54",
           "unk_x6c", "unk_x118"]
    ∧ (∀ e ∈ embeddedOffsets, e.2.1 = e.2.2) := by
  refine ⟨by decide, by decide, by decide, by decide, by decide, by decide, by decide,
    by decide, by decide, by decide, by decide, by decide⟩

/-- Every member of the layout stops at or before byte 0x11C. -/
theorem layout_stop_le : ∀ p ∈ MVDSTD_Config_layout, p.stop ≤ 0x11C := by decide

set_option maxRecDepth 100000 in
/-- C2: `MVDSTD_Config` is exactly 0x11C bytes, 71 words of 4 bytes; the byte ranges
of its members in declaration order start at 0, each non-empty range stops where the
next one starts, the last member `unk_x118` stops at 0x11C, and every byte of
`[0, 0x11C)` lies in exactly one member while no byte from 0x11C on lies in any. -/
theorem config_size_and_tiling :
    MVDSTD_Config_size = 0x11C
    ∧ MVDSTD_Config_size = 71 * 4
    ∧ (MVDSTD_Config.zero.toWords).length = 71
    ∧ MVDSTD_Config_layout.head?.map Placed.start = some 0
    ∧ (∀ pq ∈ MVDSTD_Config_layout.zip MVDSTD_Config_layout.tail, pq.1.stop = pq.2.start)
    ∧ (∀ p ∈ MVDSTD_Config_layout, p.start < p.stop)
    ∧ MVDSTD_Config_layout.getLast? = some ⟨"unk_x118", 0x118, 0x11C⟩
    ∧ (∀ b, b < 0x11C → coverCount b = 1)
    ∧ (∀ b, 0x11C ≤ b → coverCount b = 0) := by
  refine ⟨by decide, by decide, by decide, by decide, by decide, by decide, by decide,
    by decide, ?_⟩
  intro b hb
  unfold coverCount
  rw [List.length_eq_zero, List.filter_eq_nil_iff]
  intro p hp
  have hstop := layout_stop_le p hp
  simp only [decide_eq_true_eq, not_and, not_lt]
  intro _
  omega

/-- C3: the format enumerators have the numeric values 0x00010001 (YUYV422),
0x00020001 (H264), 0x00040002 (BGR565) and 0x00040004 (RGB565), and each of the two
enumerations has no other member. -/
theorem format_codes_exact :
    MVDSTD_InputFormat.MVD_INPUT_YUYV422.toCode = 0x00010001
    ∧ MVDSTD_InputFormat.MVD_INPUT_H264.toCode = 0x00020001
    ∧ MVDSTD_OutputFormat.MVD_OUTPUT_BGR565.toCode = 0x00040002
    ∧ MVDSTD_OutputFormat.MVD_OUTPUT_RGB565.toCode = 0x00040004
    ∧ (∀ f : MVDSTD_InputFormat, f = .MVD_INPUT_YUYV422 ∨ f = .MVD_INPUT_H264)
    ∧ (∀ f : MVDSTD_OutputFormat, f = .MVD_OUTPUT_BGR565 ∨ f = .MVD_OUTPUT_RGB565) := by
  refine ⟨rfl, rfl, rfl, rfl, ?_, ?_⟩
  · intro f; cases f
    · exact Or.inl rfl
    · exact Or.inr rfl
  · intro f; cases f
    · exact Or.inl rfl
    · exact Or.inr rfl

/-- C4: `MVD_STATUS_OK` is 0x17000, `MVD_STATUS_BUSY` is 0x17002, the two differ, and
no result value equals both. -/
theorem status_codes_distinct :
    MVD_STATUS_OK = 0x17000
    ∧ MVD_STATUS_BUSY = 0x17002
    ∧ MVD_STATUS_OK ≠ MVD_STATUS_BUSY
    ∧ (∀ r : Nat, ¬ (r = MVD_STATUS_OK ∧ r = MVD_STATUS_BUSY)) := by
  refine ⟨rfl, rfl, by decide, ?_⟩
  rintro r ⟨hok, hbusy⟩
  have h : MVD_STATUS_OK = MVD_STATUS_BUSY := hok.symm.trans hbusy
  revert h
  decide

/-- C5, as stated, fails: it is not the case that `MVDSTD_Config` has exactly four
colour-conversion input/intermediate address members and exactly two output address
members. -/
theorem physaddr_four_and_two_fails :
    ¬ ((MVDSTD_Config_members.filter isColorconvPhysaddr).length = 4
        ∧ (MVDSTD_Config_members.filter isOutputPhysaddr).length = 2) := by
  decide

/-- C5, amended: `MVDSTD_Config` has exactly five colour-conversion
input/intermediate address members (`physaddr_colorconv_indata` and
`physaddr_colorconv_unk0` to `physaddr_colorconv_unk3`) and exactly two output
address members (`physaddr_outdata0`, `physaddr_outdata1_colorconv`). -/
theorem physaddr_five_and_two :
    (MVDSTD_Config_members.filter isColorconvPhysaddr).length = 5
    ∧ colorconvPhysaddrNames
        = ["physaddr_colorconv_indata", "physaddr_colorconv_unk0",
           "physaddr_colorconv_unk1", "physaddr_colorconv_unk2",
           "physaddr_colorconv_unk3"]
    ∧ (MVDSTD_Config_members.filter isOutputPhysaddr).length = 2
    ∧ outputPhysaddrNames = ["physaddr_outdata0", "physaddr_outdata1_colorconv"]
    ∧ (MVDSTD_Config_members.filter
        (fun m => "physaddr_".toList.isPrefixOf m.name.toList)).length = 5 + 2 := by
  refine ⟨by decide, by decide, by decide, by decide, by decide⟩

/-- C6: the reserved array `unk_x28` has `0x18>>2 = 6` words, which is 0x18 bytes, and
covers bytes 0x28 to 0x3F; the reserved array `unk_x6c` has `0xa4>>2 = 41` words, which
is 0xA4 bytes, and covers bytes 0x6C to 0x10F; both byte sizes are multiples of 4, so
shifting right by 2 and multiplying by 4 gives the byte size back. -/
theorem reserved_array_sizes :
    MVDSTD_Config_members.find? (fun m => m.name == "unk_x28")
        = some ⟨.u32, "unk_x28", 6⟩
    ∧ MVDSTD_Config_members.find? (fun m => m.name == "unk_x6c")
        = some ⟨.u32, "unk_x6c", 41⟩
    ∧ (0x18 >>> 2 = 6 ∧ Member.bytes ⟨.u32, "unk_x28", 0x18 >>> 2⟩ = 0x18)
    ∧ (0xa4 >>> 2 = 41 ∧ Member.bytes ⟨.u32, "unk_x6c", 0xa4 >>> 2⟩ = 0xA4)
    ∧ rangeOf "unk_x28" = some (0x28, 0x3F + 1)
    ∧ rangeOf "unk_x6c" = some (0x6C, 0x10F + 1)
    ∧ (0x18 % 4 = 0 ∧ (0x18 >>> 2) <<< 2 = 0x18)
    ∧ (0xa4 % 4 = 0 ∧ (0xa4 >>> 2) <<< 2 = 0xa4)
    ∧ MVDSTD_Config.zero.unk_x28.length = 6
    ∧ MVDSTD_Config.zero.unk_x6c.length = 41 := by
  refine ⟨by decide, by decide, by decide, by decide, by decide, by decide, by decide,
    by decide, by decide, by decide⟩

/-- C10: the map from format enumerators to numeric codes is injective across both
enumerations: the four codes are pairwise distinct, no input code equals an output
code, and decoding the code of an enumerator gives that enumerator back, for the joint
decoder and for the decoder of each enumeration. -/
theorem format_code_injective :
    Function.Injective Format.toCode
    ∧ (allFormats.map Format.toCode = [0x00010001, 0x00020001, 0x00040002, 0x00040004])
    ∧ (allFormats.map Format.toCode).Nodup
    ∧ (∀ (i : MVDSTD_InputFormat) (o : MVDSTD_OutputFormat), i.toCode ≠ o.toCode)
    ∧ (∀ f : Format, decodeFormat f.toCode = some f)
    ∧ (∀ i : MVDSTD_InputFormat, decodeInputFormat i.toCode = some i)
    ∧ (∀ o : MVDSTD_OutputFormat, decodeOutputFormat o.toCode = some o) := by
  refine ⟨?_, by decide, by decide, ?_, ?_, ?_, ?_⟩
  · intro a b h
    rcases a with (_ | _) | (_ | _) <;> rcases b with (_ | _) | (_ | _) <;>
      first
        | rfl
        | (exfalso; revert h; decide)
  · intro i o
    cases i <;> cases o <;> decide
  · intro f
    rcases f with (_ | _) | (_ | _) <;> decide
  · intro i
    cases i <;> decide
  · intro o
    cases o <;> decide

end MVD
